import Mathlib

/-!
Shallow embedding of the Pext `pass` module (`src/__init__.py`), a plugin
adapter around a GPG password store.  Python strings are Lean `String`s,
host-queue puts and backend invocations are recorded as an ordered `Event`
list, the external collaborators (pypass, pyotp, the filesystem) are
abstracted as a `Ctx` of deterministic functions, and Python exceptions are
an `Except` error.
-/

/-- Whitespace characters recognised by Python `str.split()`. -/
def isSpc (c : Char) : Bool :=
  c == ' ' || c == '\t' || c == '\n' || c == '\r' || c == '\x0b' || c == '\x0c'

/-- `str.split` with no separator, before dropping empty fields: cut the
character list at every whitespace character, keeping empty segments. -/
def splitOnSpc : List Char → List (List Char)
  | [] => [[]]
  | c :: cs => if isSpc c then [] :: splitOnSpc cs else (splitOnSpc cs).modifyHead (c :: ·)

/-- Python `identifier.split()`: split on whitespace runs, dropping empties. -/
def pySplit (s : String) : List String :=
  ((splitOnSpc s.data).filter (fun l => !l.isEmpty)).map String.mk

/-- Python `" ".join(xs)`. -/
def joinSpc : List String → String
  | [] => ""
  | [x] => x
  | x :: y :: xs => x ++ " " ++ joinSpc (y :: xs)

theorem splitOnSpc_ne_nil (cs : List Char) : splitOnSpc cs ≠ [] := by
  induction cs with
  | nil => simp [splitOnSpc]
  | cons c cs ih =>
    by_cases h : isSpc c
    · simp [splitOnSpc, h]
    · simp only [splitOnSpc, h, if_neg]
      cases hs : splitOnSpc cs with
      | nil => exact absurd hs ih
      | cons a t => simp [List.modifyHead]

theorem modifyHead_append_of_ne_nil (f : List Char → List Char)
    (l₁ l₂ : List (List Char)) (h : l₁ ≠ []) :
    (l₁ ++ l₂).modifyHead f = l₁.modifyHead f ++ l₂ := by
  cases l₁ with
  | nil => exact absurd rfl h
  | cons a t => simp [List.modifyHead]

/-- Splitting a list with an explicit space in the middle splits at that space. -/
theorem splitOnSpc_append_space (xs ys : List Char) :
    splitOnSpc (xs ++ ' ' :: ys) = splitOnSpc xs ++ splitOnSpc ys := by
  induction xs with
  | nil => simp [splitOnSpc, isSpc]
  | cons c cs ih =>
    by_cases h : isSpc c
    · simp [splitOnSpc, h, ih]
    · show splitOnSpc (c :: (cs ++ ' ' :: ys)) = splitOnSpc (c :: cs) ++ splitOnSpc ys
      rw [splitOnSpc, splitOnSpc, if_neg (by simp [h]), if_neg (by simp [h]), ih,
        modifyHead_append_of_ne_nil _ _ _ (splitOnSpc_ne_nil cs)]

/-- A run of non-whitespace characters is a single field. -/
theorem splitOnSpc_of_no_space (l : List Char) (h : ∀ c ∈ l, isSpc c = false) :
    splitOnSpc l = [l] := by
  induction l with
  | nil => rfl
  | cons c cs ih =>
    have hc : isSpc c = false := h c (List.mem_cons_self c cs)
    have ih' := ih (fun d hd => h d (List.mem_cons_of_mem c hd))
    simp [splitOnSpc, hc, ih', List.modifyHead]

/-- A word: a non-empty string with no whitespace in it. -/
def wordOk (w : String) : Prop := w.data ≠ [] ∧ ∀ c ∈ w.data, isSpc c = false

theorem string_data_append (a b : String) : (a ++ b).data = a.data ++ b.data := by
  cases a; cases b; rfl

theorem pySplit_word (w : String) (hw : wordOk w) : pySplit w = [w] := by
  obtain ⟨h1, h2⟩ := hw
  simp [pySplit, splitOnSpc_of_no_space w.data h2, h1]

theorem pySplit_word_append (w s : String) (hw : wordOk w) :
    pySplit (w ++ " " ++ s) = w :: pySplit s := by
  obtain ⟨h1, h2⟩ := hw
  have hdata : (w ++ " " ++ s).data = w.data ++ ' ' :: s.data := by
    rw [string_data_append, string_data_append, List.append_assoc]; rfl
  simp only [pySplit, hdata, splitOnSpc_append_space,
    splitOnSpc_of_no_space w.data h2, List.filter_append, List.map_append]
  simp [h1]

theorem pySplit_append_word (s w : String) (hw : wordOk w) :
    pySplit (s ++ " " ++ w) = pySplit s ++ [w] := by
  obtain ⟨h1, h2⟩ := hw
  have hdata : (s ++ " " ++ w).data = s.data ++ ' ' :: w.data := by
    rw [string_data_append, string_data_append, List.append_assoc]; rfl
  simp only [pySplit, hdata, splitOnSpc_append_space,
    splitOnSpc_of_no_space w.data h2, List.filter_append, List.map_append]
  simp [h1]

/-- A Python value as it flows through the module: `None`, a string, a
boolean (yes/no answers), or an integer (the default length 15). -/
inductive Value
  | none
  | str (s : String)
  | bool (b : Bool)
  | int (n : Int)
  deriving DecidableEq, Repr

/-- Python truthiness, as used by `if not name:` etc. -/
def Value.truthy : Value → Bool
  | .none => false
  | .str s => !s.isEmpty
  | .bool b => b
  | .int n => n != 0

/-- Python `"{}".format(v)` / `str(v)`. -/
def pyStr : Value → String
  | .none => "None"
  | .str s => s
  | .bool b => if b then "True" else "False"
  | .int n => toString n

/-- Python exceptions that the embedded code can raise. -/
inductive Exn
  | typeError
  | valueError
  | keyError (k : String)
  | indexError
  deriving DecidableEq, Repr

/-- `int(s)` for a decimal string: optional surrounding whitespace, optional
sign, then at least one digit. -/
def pyParseInt (s : String) : Option Int :=
  let t := (s.data.dropWhile isSpc).reverse.dropWhile isSpc |>.reverse
  let core := match t with
    | '-' :: rest => some (true, rest)
    | '+' :: rest => some (false, rest)
    | rest => some (false, rest)
  match core with
  | some (neg, ds) =>
    if ds = [] ∨ ¬ ds.all Char.isDigit then Option.none
    else
      let mag : Int := ds.foldl (fun acc c => acc * 10 + (c.toNat - '0'.toNat : Int)) 0
      some (if neg then -mag else mag)
  | Option.none => Option.none

/-- Python `int(v)`. -/
def pyInt : Value → Except Exn Int
  | .none => .error .typeError
  | .bool b => .ok (if b then 1 else 0)
  | .int n => .ok n
  | .str s =>
    match pyParseInt s with
    | some n => .ok n
    | Option.none => .error .valueError

instance {ε α : Type} [DecidableEq ε] [DecidableEq α] : DecidableEq (Except ε α) :=
  fun a b =>
    match a, b with
    | .ok x, .ok y => if h : x = y then .isTrue (by rw [h]) else .isFalse (by simp [h])
    | .error x, .error y =>
      if h : x = y then .isTrue (by rw [h]) else .isFalse (by simp [h])
    | .ok _, .error _ => .isFalse (by simp)
    | .error _, .ok _ => .isFalse (by simp)

/-- Calls into the password-store backend and the filesystem. -/
inductive BCall
  | getDecryptedPassword (name : String)
  | insertPassword (name value : String)
  | generatePassword (name : String) (length : Int)
  | storeInit (gpgId : String)
  | copyfile (src dst : String)
  | osRename (src dst : String)
  | osRemove (path : String)
  deriving DecidableEq, Repr

/-- The host-API version gate in `_get_entries` (Python list comparison). -/
def pyVersionLt : List Int → List Int → Bool
  | [], [] => false
  | [], _ :: _ => true
  | _ :: _, [] => false
  | a :: as', b :: bs => if a < b then true else if b < a then false else pyVersionLt as' bs

/-- A selection frame (`{"type": ..., "value": ..., "context_option": ...}`). -/
inductive SelType
  | noneT
  | entry
  | command
  deriving DecidableEq, Repr

structure Frame where
  type : SelType
  value : String
  contextOption : Option String
  deriving DecidableEq, Repr

/-- Actions put on the host queue `self.q`. -/
inductive HAction
  | askInput (question defaultText identifier : String)
  | askInputMultiLine (question : String) (defaultText : Option String) (identifier : String)
  | askChoice (question : String) (choices : List String) (identifier : String)
  | askQuestion (question identifier : String)
  | setSelection
  | copyToClipboard (text : String)
  | close
  | criticalError (msg : String)
  | criticalErrorSel (sel : List Frame)
  | addEntry (entry : String)
  | setEntryInfo (entry info : String)
  | setEntryContext (entry : String) (options : List String)
  | setBaseContext (options : List String)
  | replaceEntryList
  | replaceCommandList
  | setHeader
  deriving DecidableEq, Repr

/-- One observable step: a host-queue put or a backend/filesystem call. -/
inductive Event
  | act (a : HAction)
  | call (c : BCall)
  deriving DecidableEq, Repr

/-- Result of `pyotp.parse_uri` with the code the object would produce:
`TOTP.now()` for time-based, `HOTP.generate_otp()` for counter-based. -/
inductive Otp
  | totp (code : String)
  | hotp (code : String)
  deriving DecidableEq, Repr

def Otp.code : Otp → String
  | .totp c => c
  | .hotp c => c

/-- The external collaborators (pypass backend, pyotp, filesystem, settings),
abstracted as deterministic functions. -/
structure Ctx where
  root : String
  decrypt : String → Option String
  genPw : String → Int → String
  totpUri : String → String
  hotpUri : String → String
  sameFile : String → String → Bool
  parseUri : String → Option Otp
  storeList : List String
  atime : String → Int
  mtime : String → Int
  fmtDatetime : Int → String
  apiVersion : List Int

/-- `os.path.join(a, b)` for a relative or absolute second component. -/
def pathJoin (a b : String) : String :=
  if b.data.head? = some '/' then b
  else if a = "" ∨ a.data.getLast? = some '/' then a ++ b
  else a ++ "/" ++ b

/-- `"{}\n{}".format(cur, uri)` where `cur` may be `None`. -/
def fmtOpt (o : Option String) : String :=
  match o with
  | some s => s
  | Option.none => "None"

namespace Module

/-- `Module._add_otp(name, otp_type, secret)`. -/
def addOtp (ctx : Ctx) (name otpType secret : Value) : Except Exn (List Event) :=
  if !name.truthy then
    .ok [.act (.askInput "Add OTP to which password?" "" "add_otp")]
  else if !otpType.truthy then
    .ok [.act (.askChoice "Use which OTP type?" ["TOTP", "HOTP"]
      ("add_otp " ++ pyStr name))]
  else if !secret.truthy then
    .ok [.act (.askInput "What is the OTP secret?" ""
      ("add_otp " ++ pyStr name ++ " " ++ pyStr otpType))]
  else
    let uri? : Option String :=
      if otpType = .str "TOTP" then some (ctx.totpUri (pyStr secret))
      else if otpType = .str "HOTP" then some (ctx.hotpUri (pyStr secret))
      else Option.none
    match uri? with
    | Option.none => .ok []
    | some uri =>
      .ok [.call (.getDecryptedPassword (pyStr name)),
           .call (.insertPassword (pyStr name)
             (fmtOpt (ctx.decrypt (pyStr name)) ++ "\n" ++ uri))]

/-- `Module._copy(name, copy_name)`. -/
def copy (ctx : Ctx) (name copyName : Value) : Except Exn (List Event) :=
  if !name.truthy then
    .ok [.act (.askInput "Copy which password?" "" "copy")]
  else if !copyName.truthy then
    .ok [.act (.askInput ("What should the copy of " ++ pyStr name ++ " be named?")
      (pyStr name) ("copy " ++ pyStr name))]
  else if ctx.sameFile (pathJoin ctx.root (pyStr name ++ ".gpg"))
      (pathJoin ctx.root (pyStr copyName ++ ".gpg")) then
    .ok [.act (.askInput ("What should the copy of " ++ pyStr name ++ " be named?")
      (pyStr name) ("copy " ++ pyStr name))]
  else
    .ok [.call (.copyfile (pathJoin ctx.root (pyStr name ++ ".gpg"))
           (pathJoin ctx.root (pyStr copyName ++ ".gpg"))),
         .act .setSelection]

/-- `Module._edit(name, value)`. -/
def edit (ctx : Ctx) (name value : Value) : Except Exn (List Event) :=
  if !name.truthy then
    .ok [.act (.askInput "What is the name of the password to edit?" "" "edit")]
  else if !value.truthy then
    .ok [.call (.getDecryptedPassword (pyStr name)),
         .act (.askInputMultiLine ("What should the value of " ++ pyStr name ++ " be?")
           (ctx.decrypt (pyStr name)) ("edit " ++ pyStr name))]
  else
    .ok [.call (.insertPassword (pyStr name) (pyStr value)), .act .setSelection]

/-- `Module._insert(name, value)`. -/
def insert (ctx : Ctx) (name value : Value) : Except Exn (List Event) :=
  if !name.truthy then
    .ok [.act (.askInput "What is the name of the password?" "" "insert")]
  else if !value.truthy then
    .ok [.act (.askInputMultiLine ("What should the value of " ++ pyStr name ++ " be?")
      (some "") ("insert " ++ pyStr name))]
  else
    .ok [.call (.insertPassword (pyStr name) (pyStr value)), .act .setSelection]

/-- `Module._generate(name, length)`. -/
def generate (ctx : Ctx) (name length : Value) : Except Exn (List Event) :=
  if !name.truthy then
    .ok [.act (.askInput "Generate a random password under which name?" "" "generate")]
  else if !length.truthy then
    .ok [.act (.askInput "How many characters long should the password be?" "15"
      ("generate " ++ pyStr name))]
  else
    match pyInt length with
    | .error e => .error e
    | .ok n =>
      match insert ctx name (.str (ctx.genPw (pyStr name) n)) with
      | .error e => .error e
      | .ok evs => .ok (.call (.generatePassword (pyStr name) n) :: evs)

/-- `Module._init(gpg_id)`. -/
def initStore (ctx : Ctx) (gpgId : Value) : Except Exn (List Event) :=
  if !gpgId.truthy then
    .ok [.act (.askInput "Please provide a GPG ID to initialize this directory with."
      "" "init")]
  else
    .ok [.call (.storeInit (pyStr gpgId)), .act .setSelection]

/-- `Module._remove(name, confirmed)`. -/
def remove (ctx : Ctx) (name confirmed : Value) : Except Exn (List Event) :=
  if !name.truthy then
    .ok [.act (.askInput "Remove which password?" "" "remove")]
  else if confirmed = Value.none then
    .ok [.act (.askQuestion ("Are you sure you want to remove " ++ pyStr name ++ "?")
      ("remove " ++ pyStr name))]
  else if !confirmed.truthy then
    .ok []
  else
    .ok [.call (.osRemove (pathJoin ctx.root (pyStr name ++ ".gpg"))),
         .act .setSelection]

/-- `Module._rename(name, new_name)`. -/
def rename (ctx : Ctx) (name newName : Value) : Except Exn (List Event) :=
  if !name.truthy then
    .ok [.act (.askInput "Rename which password?" "" "rename")]
  else if !newName.truthy then
    .ok [.act (.askInput ("What should the new name of " ++ pyStr name ++ " be?")
      (pyStr name) ("rename " ++ pyStr name))]
  else
    .ok [.call (.osRename (pathJoin ctx.root (pyStr name ++ ".gpg"))
           (pathJoin ctx.root (pyStr newName ++ ".gpg"))),
         .act .setSelection]

end Module

namespace Module

/-- The body of `process_response` after `data = identifier.split()`:
dispatch on `data[0]`, passing `" ".join(...)` of the accumulated fields and
the new response positionally.  The branches taken when `response is None`
are kept exactly as written in the source; in the `add_otp` branch that
path executes `" ".join(data[1:-1], otp_type=data[-1])`, which raises
`TypeError` (`str.join` takes no keyword argument). -/
def dispatchResponse (ctx : Ctx) (response : Value) (data : List String) :
    Except Exn (List Event) :=
  match data with
  | [] => .error .indexError
  | d0 :: rest =>
    if d0 = "add_otp" then
      match rest with
      | [] =>
        if response ≠ Value.none then addOtp ctx response .none .none
        else addOtp ctx .none .none .none
      | r :: rs =>
        if response ≠ Value.none then
          if (r :: rs).getLastD "" = "TOTP" ∨ (r :: rs).getLastD "" = "HOTP" then
            addOtp ctx (.str (joinSpc (r :: rs).dropLast))
              (.str ((r :: rs).getLastD "")) response
          else
            addOtp ctx (.str (joinSpc (r :: rs))) response .none
        else
          if (r :: rs).getLastD "" = "TOTP" ∨ (r :: rs).getLastD "" = "HOTP" then
            .error .typeError
          else
            addOtp ctx (.str (joinSpc (r :: rs))) .none .none
    else if d0 = "copy" then
      match rest with
      | [] =>
        if response ≠ Value.none then copy ctx response .none
        else copy ctx .none .none
      | r :: rs =>
        if response ≠ Value.none then copy ctx (.str (joinSpc (r :: rs))) response
        else copy ctx (.str (joinSpc (r :: rs))) .none
    else if d0 = "edit" then
      match rest with
      | [] =>
        if response ≠ Value.none then edit ctx response .none
        else edit ctx .none .none
      | r :: rs =>
        if response ≠ Value.none then edit ctx (.str (joinSpc (r :: rs))) response
        else edit ctx (.str (joinSpc (r :: rs))) .none
    else if d0 = "generate" then
      match rest with
      | [] =>
        if response ≠ Value.none then generate ctx response .none
        else generate ctx .none .none
      | r :: rs =>
        if response ≠ Value.none then
          generate ctx (.str (joinSpc (r :: rs)))
            (if response.truthy then response else .int 15)
        else generate ctx (.str (joinSpc (r :: rs))) .none
    else if d0 = "init" then
      if response ≠ Value.none then initStore ctx response
      else initStore ctx .none
    else if d0 = "insert" then
      match rest with
      | [] =>
        if response ≠ Value.none then insert ctx response .none
        else insert ctx .none .none
      | r :: rs =>
        if response ≠ Value.none then insert ctx (.str (joinSpc (r :: rs))) response
        else insert ctx (.str (joinSpc (r :: rs))) .none
    else if d0 = "remove" then
      match rest with
      | [] =>
        if response ≠ Value.none then remove ctx response .none
        else remove ctx .none .none
      | r :: rs =>
        if response ≠ Value.none then remove ctx (.str (joinSpc (r :: rs))) response
        else remove ctx (.str (joinSpc (r :: rs))) .none
    else if d0 = "rename" then
      match rest with
      | [] =>
        if response ≠ Value.none then rename ctx response .none
        else rename ctx .none .none
      | r :: rs =>
        if response ≠ Value.none then rename ctx (.str (joinSpc (r :: rs))) response
        else rename ctx (.str (joinSpc (r :: rs))) .none
    else
      .ok [.act (.criticalError ("Unknown request received: " ++ joinSpc (d0 :: rest)))]

/-- `Module.process_response(response, identifier)`: `None` means the user
cancelled and returns immediately; otherwise the identifier is split on
whitespace and dispatched. -/
def processResponse (ctx : Ctx) (response : Value) (identifier : String) :
    Except Exn (List Event) :=
  if response = Value.none then .ok []
  else dispatchResponse ctx response (pySplit identifier)

end Module

/-- Python `str.rstrip()`: drop trailing whitespace. -/
def pyRstrip (s : String) : String :=
  String.mk (s.data.reverse.dropWhile isSpc).reverse

/-- Python `str.splitlines()` over `\n`, `\r\n` and `\r` terminators. -/
def splitLinesAux : List Char → List Char → List (List Char)
  | '\r' :: '\n' :: cs, acc => acc.reverse :: splitLinesAux cs []
  | '\n' :: cs, acc => acc.reverse :: splitLinesAux cs []
  | '\r' :: cs, acc => acc.reverse :: splitLinesAux cs []
  | c :: cs, acc => splitLinesAux cs (c :: acc)
  | [], acc => if acc.isEmpty then [] else [acc.reverse]

def pySplitLines (s : String) : List String :=
  (splitLinesAux s.data []).map String.mk

/-- Python `content.split(": ", 1)` at the character-list level: the part
before the first occurrence of the separator and, when present, the part
after it. -/
def splitFirstAux (sep : List Char) : List Char → Option (List Char × List Char)
  | [] => Option.none
  | c :: cs =>
    if sep.isPrefixOf (c :: cs) then some ([], (c :: cs).drop sep.length)
    else
      match splitFirstAux sep cs with
      | some (pre, post) => some (c :: pre, post)
      | Option.none => Option.none

def splitFirst (s sep : String) : String × Option String :=
  match splitFirstAux sep.data s.data with
  | some (pre, post) => (String.mk pre, some (String.mk post))
  | Option.none => (s, Option.none)

/-- `copyStringParts[1] if len(copyStringParts) > 1 else copyStringParts[0]`
for `content.split(": ", 1)`. -/
def copyPart (content : String) : String :=
  match splitFirst content ": " with
  | (_, some post) => post
  | (pre, Option.none) => pre

/-- Python `html.escape(s)` with the default `quote=True`. -/
def htmlEscape (s : String) : String :=
  String.mk (s.data.flatMap (fun c =>
    if c = '&' then "&amp;".data
    else if c = '<' then "&lt;".data
    else if c = '>' then "&gt;".data
    else if c = '"' then "&quot;".data
    else if c = '\'' then "&#x27;".data
    else [c]))

/-- The session cache `self.passwordEntries`, an insertion-ordered map from
displayed label to content line. -/
def Entries := List (String × String)

instance : DecidableEq Entries := inferInstanceAs (DecidableEq (List (String × String)))

/-- Python dict assignment `m[k] = v`: overwrite in place or append. -/
def setEntry (m : Entries) (k v : String) : Entries :=
  if (List.any m (fun p => p.1 == k)) then
    List.map (fun p => if p.1 == k then (k, v) else p) m
  else
    List.append m [(k, v)]

/-- Python dict lookup `m[k]`. -/
def getEntry (m : Entries) (k : String) : Option String :=
  List.lookup k m

namespace Module

/-- `Module._get_entries()`: list the store sorted by access time (most
recent first) and emit the add/info/context-menu actions per entry. -/
def getEntries (ctx : Ctx) : List Event :=
  let sorted := ctx.storeList.mergeSort
    (fun a b => ctx.atime (b ++ ".gpg") ≤ ctx.atime (a ++ ".gpg"))
  sorted.flatMap (fun password =>
    let entryPath := password ++ ".gpg"
    let entry := password.drop ctx.root.length
    [.act (.addEntry entry),
     .act (.setEntryInfo entry
       ("<b>" ++ htmlEscape entry ++ "</b><br/><br/><b>Last opened</b><br/>" ++
        ctx.fmtDatetime (ctx.atime entryPath) ++
        "<br/><br/><b>Last modified</b><br/>" ++
        ctx.fmtDatetime (ctx.mtime entryPath))),
     .act (.setEntryContext entry
       (if pyVersionLt ctx.apiVersion [0, 12, 0] then
          ["Open", "Edit", "Copy", "Rename", "Remove"]
        else
          ["Open", "Edit", "Copy", "Rename", "Add OTP"]))])

/-- The decrypted content after `rstrip().splitlines()` and the per-line OTP
substitution: a line that parses as a provisioning URI is replaced by
`"OTP: <code>"`. -/
def otpLines (ctx : Ctx) (content : String) : List String :=
  (pySplitLines (pyRstrip content)).map (fun line =>
    match ctx.parseUri line with
    | Option.none => line
    | some otp => "OTP: " ++ otp.code)

/-- `Module.selection_made(selection)`: takes and returns the session cache
`self.passwordEntries` alongside the emitted events. -/
def selectionMade (ctx : Ctx) (st : Entries) (selection : List Frame) :
    Except Exn (List Event × Entries) :=
  match selection with
  | [] =>
    .ok ([.act .setHeader, .act .replaceCommandList, .act .replaceEntryList] ++
      getEntries ctx, [])
  | f :: fs =>
    let lastF := (f :: fs).getLast (List.cons_ne_nil f fs)
    if lastF.type = SelType.noneT then
      if lastF.contextOption = some "Create" then
        match insert ctx .none .none with
        | .error e => .error e
        | .ok evs => .ok (.act .setSelection :: evs, st)
      else if lastF.contextOption = some "Generate" then
        match generate ctx .none .none with
        | .error e => .error e
        | .ok evs => .ok (.act .setSelection :: evs, st)
      else
        .ok ([.act (.criticalErrorSel selection)], st)
    else
      match selection with
      | [g] =>
        if g.type = SelType.entry then
          if g.contextOption = some "Edit" then
            match edit ctx (.str g.value) .none with
            | .error e => .error e
            | .ok evs => .ok (.act .setSelection :: evs, st)
          else if g.contextOption = some "Copy" then
            match copy ctx (.str g.value) .none with
            | .error e => .error e
            | .ok evs => .ok (.act .setSelection :: evs, st)
          else if g.contextOption = some "Rename" then
            match rename ctx (.str g.value) .none with
            | .error e => .error e
            | .ok evs => .ok (.act .setSelection :: evs, st)
          else if g.contextOption = some "Remove" then
            match remove ctx (.str g.value) .none with
            | .error e => .error e
            | .ok evs => .ok (.act .setSelection :: evs, st)
          else if g.contextOption = some "Add OTP" then
            match addOtp ctx (.str g.value) .none .none with
            | .error e => .error e
            | .ok evs => .ok (.act .setSelection :: evs, st)
          else
            match ctx.decrypt g.value with
            | Option.none =>
              .ok ([.call (.getDecryptedPassword g.value), .act .setSelection], st)
            | some results =>
              let lines := otpLines ctx results
              let pre : List Event :=
                [.call (.getDecryptedPassword g.value),
                 .act .replaceEntryList, .act .replaceCommandList]
              if lines.length = 1 then
                .ok (pre ++ [.act (.copyToClipboard (lines.headD "")), .act .close], st)
              else
                let step := fun (acc : Entries × List Event) (line : String) =>
                  if acc.1.length = 0 then
                    (setEntry acc.1 "********" line,
                     acc.2 ++ [.act (.addEntry "********")])
                  else
                    (setEntry acc.1 line line, acc.2 ++ [.act (.addEntry line)])
                let out := lines.foldl step (st, [])
                .ok (pre ++ out.2, out.1)
        else
          .ok ([.act (.criticalErrorSel selection)], st)
      | [_, g] =>
        if g.value = "********" then
          match getEntry st "********" with
          | Option.none => .error (.keyError "********")
          | some content =>
            .ok ([.act (.copyToClipboard content), .act .close], [])
        else
          match getEntry st g.value with
          | Option.none => .error (.keyError g.value)
          | some content =>
            .ok ([.act (.copyToClipboard (copyPart content)), .act .close], [])
      | _ =>
        .ok ([.act (.criticalErrorSel selection)], st)

end Module

/-- Tail of the ANSI pattern after its introducer: `[0-?]*[ -\/]*[@-~]`.
The three character classes are disjoint, so greedy matching is exact. -/
def ansiTail (cs : List Char) : Option (List Char) :=
  let cs1 := cs.dropWhile (fun c => decide ('0' ≤ c) && decide (c ≤ '?'))
  let cs2 := cs1.dropWhile (fun c => decide (' ' ≤ c) && decide (c ≤ '/'))
  match cs2 with
  | c :: rest => if decide ('@' ≤ c) && decide (c ≤ '~') then some rest else Option.none
  | [] => Option.none

/-- One attempted match of the regex compiled at `init` line 59,
`(\x9B|\x1B\[)[0-?]*[ -\/]*[@-~]`, at the head of the list. -/
def ansiMatch : List Char → Option (List Char)
  | '\x9b' :: cs => ansiTail cs
  | '\x1b' :: '[' :: cs => ansiTail cs
  | _ => Option.none

def stripAnsiAux : Nat → List Char → List Char
  | 0, cs => cs
  | _ + 1, [] => []
  | fuel + 1, c :: cs =>
    match ansiMatch (c :: cs) with
    | some rest => stripAnsiAux fuel rest
    | Option.none => c :: stripAnsiAux fuel cs

/-- `re.sub` of the module's `ANSIEscapeRegex` with the empty string: what a
line looks like with every ANSI escape sequence removed.  The module
compiles this regex but never applies it. -/
def stripAnsi (s : String) : String :=
  String.mk (stripAnsiAux s.data.length s.data)

/-- The eight user-facing operations of the continuation protocol. -/
inductive Op
  | insertOp
  | generateOp
  | editOp
  | copyOp
  | renameOp
  | removeOp
  | initOp
  | addOtpOp
  deriving DecidableEq, Repr

/-- Invoke an operation with its parameters supplied positionally; missing
parameters default to `None` exactly as in the Python signatures. -/
def invokeOp (ctx : Ctx) (op : Op) (args : List Value) : Except Exn (List Event) :=
  let a := fun i => args.getD i Value.none
  match op with
  | .insertOp => Module.insert ctx (a 0) (a 1)
  | .generateOp => Module.generate ctx (a 0) (a 1)
  | .editOp => Module.edit ctx (a 0) (a 1)
  | .copyOp => Module.copy ctx (a 0) (a 1)
  | .renameOp => Module.rename ctx (a 0) (a 1)
  | .removeOp => Module.remove ctx (a 0) (a 1)
  | .initOp => Module.initStore ctx (a 0)
  | .addOtpOp => Module.addOtp ctx (a 0) (a 1) (a 2)

/-- The continuation token carried by an ask action. -/
def askId : Event → Option String
  | .act (.askInput _ _ tok) => some tok
  | .act (.askInputMultiLine _ _ tok) => some tok
  | .act (.askChoice _ _ tok) => some tok
  | .act (.askQuestion _ tok) => some tok
  | _ => Option.none

def firstAskId (evs : List Event) : Option String :=
  evs.findSome? askId

/-- Drive the prompt/response protocol: starting from the events of the
previous step, answer the pending ask through `process_response`, one
answer per cycle; the result is the final cycle's outcome. -/
def driveFrom (ctx : Ctx) : Except Exn (List Event) → List Value → Except Exn (List Event)
  | r, [] => r
  | .error e, _ :: _ => .error e
  | .ok evs, a :: rest =>
    match firstAskId evs with
    | some tok => driveFrom ctx (Module.processResponse ctx a tok) rest
    | Option.none => .ok evs

/-- Invoke `op` with no parameters, then feed the answers one at a time. -/
def drive (ctx : Ctx) (op : Op) (answers : List Value) : Except Exn (List Event) :=
  driveFrom ctx (invokeOp ctx op []) answers

/-- A name that survives the continuation round-trip: non-empty, and
whitespace-splitting then space-joining it is the identity (no leading,
trailing or repeated whitespace). -/
def goodName (n : String) : Prop := n ≠ "" ∧ joinSpc (pySplit n) = n

/-- The per-operation conditions under which the step-by-step flow is
claimed to agree with the all-at-once invocation. -/
def goodAnswers : Op → List Value → Prop
  | .initOp, args => ∃ g, args = [Value.str g] ∧ g ≠ ""
  | .insertOp, args => ∃ n v, args = [Value.str n, Value.str v] ∧ goodName n
  | .editOp, args => ∃ n v, args = [Value.str n, Value.str v] ∧ goodName n
  | .copyOp, args => ∃ n v, args = [Value.str n, Value.str v] ∧ goodName n
  | .renameOp, args => ∃ n v, args = [Value.str n, Value.str v] ∧ goodName n
  | .removeOp, args => ∃ n v, args = [Value.str n, v] ∧ goodName n ∧ v ≠ Value.none
  | .generateOp, args => ∃ n l, args = [Value.str n, Value.str l] ∧ goodName n ∧ l ≠ ""
  | .addOtpOp, args => ∃ n t s, args = [Value.str n, Value.str t, Value.str s] ∧
      goodName n ∧ (t = "TOTP" ∨ t = "HOTP") ∧
      (pySplit n).getLastD "" ≠ "TOTP" ∧ (pySplit n).getLastD "" ≠ "HOTP"

/-- A concrete environment used to evaluate the model on closed inputs. -/
def ctx0 : Ctx where
  root := "/r/"
  decrypt := fun _ => some "pw"
  genPw := fun _ _ => "gen"
  totpUri := fun s => "otpauth://totp/x?secret=" ++ s
  hotpUri := fun s => "otpauth://hotp/x?secret=" ++ s
  sameFile := fun a b => a == b
  parseUri := fun _ => Option.none
  storeList := []
  atime := fun _ => 0
  mtime := fun _ => 0
  fmtDatetime := fun _ => ""
  apiVersion := [0, 12, 0]


theorem str_ne_none (s : String) : Value.str s ≠ Value.none := nofun

theorem isEmpty_false_of_ne (s : String) (h : s ≠ "") : s.isEmpty = false := by
  rw [Bool.eq_false_iff]
  intro hh
  exact h (String.isEmpty_iff s |>.mp hh)

theorem truthy_str (s : String) (h : s ≠ "") : Value.truthy (.str s) = true := by
  simp [Value.truthy, isEmpty_false_of_ne s h]

instance (w : String) : Decidable (wordOk w) := by
  unfold wordOk
  infer_instance

theorem goodName_split_ne_nil {n : String} (hn : goodName n) : pySplit n ≠ [] := by
  intro h
  have h2 := hn.2
  rw [h] at h2
  exact hn.1 h2.symm

theorem joinSpc_of_split {n : String} (hn : goodName n) {r : String} {rs : List String}
    (hrs : pySplit n = r :: rs) : joinSpc (r :: rs) = n := by
  rw [← hrs]
  exact hn.2

theorem driveFrom_nil (ctx : Ctx) (r : Except Exn (List Event)) :
    driveFrom ctx r [] = r := by
  cases r <;> simp [driveFrom]

theorem driveFrom_cons (ctx : Ctx) (evs : List Event) (a : Value) (rest : List Value)
    (tok : String) (h : firstAskId evs = some tok) :
    driveFrom ctx (.ok evs) (a :: rest) =
      driveFrom ctx (Module.processResponse ctx a tok) rest := by
  simp [driveFrom, h]

theorem drive_insert (ctx : Ctx) (n v : String) (hn : goodName n) :
    drive ctx .insertOp [.str n, .str v] = invokeOp ctx .insertOp [.str n, .str v] := by
  obtain ⟨r, rs, hrs⟩ := List.exists_cons_of_ne_nil (goodName_split_ne_nil hn)
  have step1 : Module.processResponse ctx (.str n) "insert" =
      Module.insert ctx (.str n) .none := by
    simp only [Module.processResponse]
    rw [if_neg (str_ne_none n), pySplit_word "insert" (by decide)]
    have hd : Module.dispatchResponse ctx (.str n) ["insert"] =
        if (Value.str n) ≠ Value.none then Module.insert ctx (.str n) .none
        else Module.insert ctx .none .none := rfl
    rw [hd, if_pos (str_ne_none n)]
  have ask2 : Module.insert ctx (.str n) .none =
      .ok [.act (.askInputMultiLine ("What should the value of " ++ n ++ " be?")
        (some "") ("insert " ++ n))] := by
    simp [Module.insert, Value.truthy, isEmpty_false_of_ne n hn.1, pyStr]
  have step2 : Module.processResponse ctx (.str v) ("insert " ++ n) =
      Module.insert ctx (.str n) (.str v) := by
    simp only [Module.processResponse]
    rw [if_neg (str_ne_none v)]
    have htok : ("insert " ++ n) = "insert" ++ " " ++ n := rfl
    rw [htok, pySplit_word_append "insert" n (by decide), hrs]
    have hd : Module.dispatchResponse ctx (.str v) ("insert" :: r :: rs) =
        if (Value.str v) ≠ Value.none then
          Module.insert ctx (.str (joinSpc (r :: rs))) (.str v)
        else Module.insert ctx (.str (joinSpc (r :: rs))) .none := rfl
    rw [hd, if_pos (str_ne_none v), joinSpc_of_split hn hrs]
  have h0 : drive ctx .insertOp [.str n, .str v] =
      driveFrom ctx (.ok [.act (.askInput "What is the name of the password?" ""
        "insert")]) [.str n, .str v] := rfl
  rw [h0, driveFrom_cons ctx [.act (.askInput "What is the name of the password?" ""
    "insert")] (.str n) [.str v] "insert" rfl, step1, ask2,
    driveFrom_cons ctx [.act (.askInputMultiLine
      ("What should the value of " ++ n ++ " be?") (some "") ("insert " ++ n))]
      (.str v) [] ("insert " ++ n) rfl, driveFrom_nil, step2]
  rfl

theorem drive_edit (ctx : Ctx) (n v : String) (hn : goodName n) :
    drive ctx .editOp [.str n, .str v] = invokeOp ctx .editOp [.str n, .str v] := by
  obtain ⟨r, rs, hrs⟩ := List.exists_cons_of_ne_nil (goodName_split_ne_nil hn)
  have step1 : Module.processResponse ctx (.str n) "edit" =
      Module.edit ctx (.str n) .none := by
    simp only [Module.processResponse]
    rw [if_neg (str_ne_none n), pySplit_word "edit" (by decide)]
    have hd : Module.dispatchResponse ctx (.str n) ["edit"] =
        if (Value.str n) ≠ Value.none then Module.edit ctx (.str n) .none
        else Module.edit ctx .none .none := rfl
    rw [hd, if_pos (str_ne_none n)]
  have ask2 : Module.edit ctx (.str n) .none =
      .ok [.call (.getDecryptedPassword n),
           .act (.askInputMultiLine ("What should the value of " ++ n ++ " be?")
             (ctx.decrypt n) ("edit " ++ n))] := by
    simp [Module.edit, Value.truthy, isEmpty_false_of_ne n hn.1, pyStr]
  have step2 : Module.processResponse ctx (.str v) ("edit " ++ n) =
      Module.edit ctx (.str n) (.str v) := by
    simp only [Module.processResponse]
    rw [if_neg (str_ne_none v)]
    have htok : ("edit " ++ n) = "edit" ++ " " ++ n := rfl
    rw [htok, pySplit_word_append "edit" n (by decide), hrs]
    have hd : Module.dispatchResponse ctx (.str v) ("edit" :: r :: rs) =
        if (Value.str v) ≠ Value.none then
          Module.edit ctx (.str (joinSpc (r :: rs))) (.str v)
        else Module.edit ctx (.str (joinSpc (r :: rs))) .none := rfl
    rw [hd, if_pos (str_ne_none v), joinSpc_of_split hn hrs]
  have h0 : drive ctx .editOp [.str n, .str v] =
      driveFrom ctx (.ok [.act (.askInput "What is the name of the password to edit?"
        "" "edit")]) [.str n, .str v] := rfl
  rw [h0, driveFrom_cons ctx [.act (.askInput "What is the name of the password to edit?"
    "" "edit")] (.str n) [.str v] "edit" rfl, step1, ask2,
    driveFrom_cons ctx [.call (.getDecryptedPassword n),
      .act (.askInputMultiLine ("What should the value of " ++ n ++ " be?")
        (ctx.decrypt n) ("edit " ++ n))] (.str v) [] ("edit " ++ n) rfl,
    driveFrom_nil, step2]
  rfl

theorem drive_copy (ctx : Ctx) (n v : String) (hn : goodName n) :
    drive ctx .copyOp [.str n, .str v] = invokeOp ctx .copyOp [.str n, .str v] := by
  obtain ⟨r, rs, hrs⟩ := List.exists_cons_of_ne_nil (goodName_split_ne_nil hn)
  have step1 : Module.processResponse ctx (.str n) "copy" =
      Module.copy ctx (.str n) .none := by
    simp only [Module.processResponse]
    rw [if_neg (str_ne_none n), pySplit_word "copy" (by decide)]
    have hd : Module.dispatchResponse ctx (.str n) ["copy"] =
        if (Value.str n) ≠ Value.none then Module.copy ctx (.str n) .none
        else Module.copy ctx .none .none := rfl
    rw [hd, if_pos (str_ne_none n)]
  have ask2 : Module.copy ctx (.str n) .none =
      .ok [.act (.askInput ("What should the copy of " ++ n ++ " be named?")
        n ("copy " ++ n))] := by
    simp [Module.copy, Value.truthy, isEmpty_false_of_ne n hn.1, pyStr]
  have step2 : Module.processResponse ctx (.str v) ("copy " ++ n) =
      Module.copy ctx (.str n) (.str v) := by
    simp only [Module.processResponse]
    rw [if_neg (str_ne_none v)]
    have htok : ("copy " ++ n) = "copy" ++ " " ++ n := rfl
    rw [htok, pySplit_word_append "copy" n (by decide), hrs]
    have hd : Module.dispatchResponse ctx (.str v) ("copy" :: r :: rs) =
        if (Value.str v) ≠ Value.none then
          Module.copy ctx (.str (joinSpc (r :: rs))) (.str v)
        else Module.copy ctx (.str (joinSpc (r :: rs))) .none := rfl
    rw [hd, if_pos (str_ne_none v), joinSpc_of_split hn hrs]
  have h0 : drive ctx .copyOp [.str n, .str v] =
      driveFrom ctx (.ok [.act (.askInput "Copy which password?" "" "copy")])
        [.str n, .str v] := rfl
  rw [h0, driveFrom_cons ctx [.act (.askInput "Copy which password?" "" "copy")]
    (.str n) [.str v] "copy" rfl, step1, ask2,
    driveFrom_cons ctx [.act (.askInput ("What should the copy of " ++ n ++
      " be named?") n ("copy " ++ n))] (.str v) [] ("copy " ++ n) rfl,
    driveFrom_nil, step2]
  rfl

theorem drive_rename (ctx : Ctx) (n v : String) (hn : goodName n) :
    drive ctx .renameOp [.str n, .str v] = invokeOp ctx .renameOp [.str n, .str v] := by
  obtain ⟨r, rs, hrs⟩ := List.exists_cons_of_ne_nil (goodName_split_ne_nil hn)
  have step1 : Module.processResponse ctx (.str n) "rename" =
      Module.rename ctx (.str n) .none := by
    simp only [Module.processResponse]
    rw [if_neg (str_ne_none n), pySplit_word "rename" (by decide)]
    have hd : Module.dispatchResponse ctx (.str n) ["rename"] =
        if (Value.str n) ≠ Value.none then Module.rename ctx (.str n) .none
        else Module.rename ctx .none .none := rfl
    rw [hd, if_pos (str_ne_none n)]
  have ask2 : Module.rename ctx (.str n) .none =
      .ok [.act (.askInput ("What should the new name of " ++ n ++ " be?")
        n ("rename " ++ n))] := by
    simp [Module.rename, Value.truthy, isEmpty_false_of_ne n hn.1, pyStr]
  have step2 : Module.processResponse ctx (.str v) ("rename " ++ n) =
      Module.rename ctx (.str n) (.str v) := by
    simp only [Module.processResponse]
    rw [if_neg (str_ne_none v)]
    have htok : ("rename " ++ n) = "rename" ++ " " ++ n := rfl
    rw [htok, pySplit_word_append "rename" n (by decide), hrs]
    have hd : Module.dispatchResponse ctx (.str v) ("rename" :: r :: rs) =
        if (Value.str v) ≠ Value.none then
          Module.rename ctx (.str (joinSpc (r :: rs))) (.str v)
        else Module.rename ctx (.str (joinSpc (r :: rs))) .none := rfl
    rw [hd, if_pos (str_ne_none v), joinSpc_of_split hn hrs]
  have h0 : drive ctx .renameOp [.str n, .str v] =
      driveFrom ctx (.ok [.act (.askInput "Rename which password?" "" "rename")])
        [.str n, .str v] := rfl
  rw [h0, driveFrom_cons ctx [.act (.askInput "Rename which password?" "" "rename")]
    (.str n) [.str v] "rename" rfl, step1, ask2,
    driveFrom_cons ctx [.act (.askInput ("What should the new name of " ++ n ++
      " be?") n ("rename " ++ n))] (.str v) [] ("rename " ++ n) rfl,
    driveFrom_nil, step2]
  rfl

theorem drive_remove (ctx : Ctx) (n : String) (v : Value) (hn : goodName n)
    (hv : v ≠ Value.none) :
    drive ctx .removeOp [.str n, v] = invokeOp ctx .removeOp [.str n, v] := by
  obtain ⟨r, rs, hrs⟩ := List.exists_cons_of_ne_nil (goodName_split_ne_nil hn)
  have step1 : Module.processResponse ctx (.str n) "remove" =
      Module.remove ctx (.str n) .none := by
    simp only [Module.processResponse]
    rw [if_neg (str_ne_none n), pySplit_word "remove" (by decide)]
    have hd : Module.dispatchResponse ctx (.str n) ["remove"] =
        if (Value.str n) ≠ Value.none then Module.remove ctx (.str n) .none
        else Module.remove ctx .none .none := rfl
    rw [hd, if_pos (str_ne_none n)]
  have ask2 : Module.remove ctx (.str n) .none =
      .ok [.act (.askQuestion ("Are you sure you want to remove " ++ n ++ "?")
        ("remove " ++ n))] := by
    simp [Module.remove, Value.truthy, isEmpty_false_of_ne n hn.1, pyStr]
  have step2 : Module.processResponse ctx v ("remove " ++ n) =
      Module.remove ctx (.str n) v := by
    simp only [Module.processResponse]
    rw [if_neg hv]
    have htok : ("remove " ++ n) = "remove" ++ " " ++ n := rfl
    rw [htok, pySplit_word_append "remove" n (by decide), hrs]
    have hd : Module.dispatchResponse ctx v ("remove" :: r :: rs) =
        if v ≠ Value.none then
          Module.remove ctx (.str (joinSpc (r :: rs))) v
        else Module.remove ctx (.str (joinSpc (r :: rs))) .none := rfl
    rw [hd, if_pos hv, joinSpc_of_split hn hrs]
  have h0 : drive ctx .removeOp [.str n, v] =
      driveFrom ctx (.ok [.act (.askInput "Remove which password?" "" "remove")])
        [.str n, v] := rfl
  rw [h0, driveFrom_cons ctx [.act (.askInput "Remove which password?" "" "remove")]
    (.str n) [v] "remove" rfl, step1, ask2,
    driveFrom_cons ctx [.act (.askQuestion ("Are you sure you want to remove " ++ n ++
      "?") ("remove " ++ n))] v [] ("remove " ++ n) rfl,
    driveFrom_nil, step2]
  rfl

theorem drive_generate (ctx : Ctx) (n l : String) (hn : goodName n) (hl : l ≠ "") :
    drive ctx .generateOp [.str n, .str l] =
      invokeOp ctx .generateOp [.str n, .str l] := by
  obtain ⟨r, rs, hrs⟩ := List.exists_cons_of_ne_nil (goodName_split_ne_nil hn)
  have step1 : Module.processResponse ctx (.str n) "generate" =
      Module.generate ctx (.str n) .none := by
    simp only [Module.processResponse]
    rw [if_neg (str_ne_none n), pySplit_word "generate" (by decide)]
    have hd : Module.dispatchResponse ctx (.str n) ["generate"] =
        if (Value.str n) ≠ Value.none then Module.generate ctx (.str n) .none
        else Module.generate ctx .none .none := rfl
    rw [hd, if_pos (str_ne_none n)]
  have ask2 : Module.generate ctx (.str n) .none =
      .ok [.act (.askInput "How many characters long should the password be?" "15"
        ("generate " ++ n))] := by
    simp [Module.generate, Value.truthy, isEmpty_false_of_ne n hn.1, pyStr]
  have step2 : Module.processResponse ctx (.str l) ("generate " ++ n) =
      Module.generate ctx (.str n) (.str l) := by
    simp only [Module.processResponse]
    rw [if_neg (str_ne_none l)]
    have htok : ("generate " ++ n) = "generate" ++ " " ++ n := rfl
    rw [htok, pySplit_word_append "generate" n (by decide), hrs]
    have hd : Module.dispatchResponse ctx (.str l) ("generate" :: r :: rs) =
        if (Value.str l) ≠ Value.none then
          Module.generate ctx (.str (joinSpc (r :: rs)))
            (if (Value.str l).truthy then (Value.str l) else .int 15)
        else Module.generate ctx (.str (joinSpc (r :: rs))) .none := rfl
    rw [hd, if_pos (str_ne_none l), joinSpc_of_split hn hrs, truthy_str l hl]
    simp
  have h0 : drive ctx .generateOp [.str n, .str l] =
      driveFrom ctx (.ok [.act (.askInput "Generate a random password under which name?"
        "" "generate")]) [.str n, .str l] := rfl
  rw [h0, driveFrom_cons ctx [.act (.askInput
    "Generate a random password under which name?" "" "generate")]
    (.str n) [.str l] "generate" rfl, step1, ask2,
    driveFrom_cons ctx [.act (.askInput
      "How many characters long should the password be?" "15" ("generate " ++ n))]
      (.str l) [] ("generate " ++ n) rfl,
    driveFrom_nil, step2]
  rfl

theorem drive_initStore (ctx : Ctx) (g : String) :
    drive ctx .initOp [.str g] = invokeOp ctx .initOp [.str g] := by
  have step1 : Module.processResponse ctx (.str g) "init" =
      Module.initStore ctx (.str g) := by
    simp only [Module.processResponse]
    rw [if_neg (str_ne_none g), pySplit_word "init" (by decide)]
    have hd : Module.dispatchResponse ctx (.str g) ["init"] =
        if (Value.str g) ≠ Value.none then Module.initStore ctx (.str g)
        else Module.initStore ctx .none := rfl
    rw [hd, if_pos (str_ne_none g)]
  have h0 : drive ctx .initOp [.str g] =
      driveFrom ctx (.ok [.act (.askInput
        "Please provide a GPG ID to initialize this directory with." "" "init")])
        [.str g] := rfl
  rw [h0, driveFrom_cons ctx [.act (.askInput
    "Please provide a GPG ID to initialize this directory with." "" "init")]
    (.str g) [] "init" rfl, driveFrom_nil, step1]
  rfl

theorem drive_addOtp (ctx : Ctx) (n t s : String) (hn : goodName n)
    (ht : t = "TOTP" ∨ t = "HOTP")
    (hT : (pySplit n).getLastD "" ≠ "TOTP") (hH : (pySplit n).getLastD "" ≠ "HOTP") :
    drive ctx .addOtpOp [.str n, .str t, .str s] =
      invokeOp ctx .addOtpOp [.str n, .str t, .str s] := by
  obtain ⟨r, rs, hrs⟩ := List.exists_cons_of_ne_nil (goodName_split_ne_nil hn)
  have htne : t ≠ "" := by rcases ht with h | h <;> subst h <;> decide
  have htword : wordOk t := by rcases ht with h | h <;> subst h <;> decide
  have step1 : Module.processResponse ctx (.str n) "add_otp" =
      Module.addOtp ctx (.str n) .none .none := by
    simp only [Module.processResponse]
    rw [if_neg (str_ne_none n), pySplit_word "add_otp" (by decide)]
    have hd : Module.dispatchResponse ctx (.str n) ["add_otp"] =
        if (Value.str n) ≠ Value.none then Module.addOtp ctx (.str n) .none .none
        else Module.addOtp ctx .none .none .none := rfl
    rw [hd, if_pos (str_ne_none n)]
  have ask2 : Module.addOtp ctx (.str n) .none .none =
      .ok [.act (.askChoice "Use which OTP type?" ["TOTP", "HOTP"]
        ("add_otp " ++ n))] := by
    simp [Module.addOtp, Value.truthy, isEmpty_false_of_ne n hn.1, pyStr]
  have step2 : Module.processResponse ctx (.str t) ("add_otp " ++ n) =
      Module.addOtp ctx (.str n) (.str t) .none := by
    simp only [Module.processResponse]
    rw [if_neg (str_ne_none t)]
    have htok : ("add_otp " ++ n) = "add_otp" ++ " " ++ n := rfl
    rw [htok, pySplit_word_append "add_otp" n (by decide), hrs]
    rw [hrs] at hT hH
    have hcond : ¬ ((r :: rs).getLastD "" = "TOTP" ∨ (r :: rs).getLastD "" = "HOTP") := by
      rintro (h | h)
      · exact hT h
      · exact hH h
    have hd : Module.dispatchResponse ctx (.str t) ("add_otp" :: r :: rs) =
        if (Value.str t) ≠ Value.none then
          (if (r :: rs).getLastD "" = "TOTP" ∨ (r :: rs).getLastD "" = "HOTP" then
            Module.addOtp ctx (.str (joinSpc (r :: rs).dropLast))
              (.str ((r :: rs).getLastD "")) (.str t)
          else Module.addOtp ctx (.str (joinSpc (r :: rs))) (.str t) .none)
        else
          (if (r :: rs).getLastD "" = "TOTP" ∨ (r :: rs).getLastD "" = "HOTP" then
            Except.error Exn.typeError
          else Module.addOtp ctx (.str (joinSpc (r :: rs))) .none .none) := rfl
    rw [hd, if_pos (str_ne_none t), if_neg hcond, joinSpc_of_split hn hrs]
  have ask3 : Module.addOtp ctx (.str n) (.str t) .none =
      .ok [.act (.askInput "What is the OTP secret?" ""
        ("add_otp " ++ n ++ " " ++ t))] := by
    simp [Module.addOtp, Value.truthy, isEmpty_false_of_ne n hn.1,
      isEmpty_false_of_ne t htne, pyStr]
  have step3 : Module.processResponse ctx (.str s) ("add_otp " ++ n ++ " " ++ t) =
      Module.addOtp ctx (.str n) (.str t) (.str s) := by
    simp only [Module.processResponse]
    rw [if_neg (str_ne_none s)]
    rw [pySplit_append_word ("add_otp " ++ n) t htword]
    have htok : ("add_otp " ++ n) = "add_otp" ++ " " ++ n := rfl
    rw [htok, pySplit_word_append "add_otp" n (by decide), hrs]
    have hd : Module.dispatchResponse ctx (.str s) ("add_otp" :: ((r :: rs) ++ [t])) =
        if (Value.str s) ≠ Value.none then
          (if ((r :: rs) ++ [t]).getLastD "" = "TOTP" ∨
              ((r :: rs) ++ [t]).getLastD "" = "HOTP" then
            Module.addOtp ctx (.str (joinSpc ((r :: rs) ++ [t]).dropLast))
              (.str (((r :: rs) ++ [t]).getLastD "")) (.str s)
          else Module.addOtp ctx (.str (joinSpc ((r :: rs) ++ [t]))) (.str s) .none)
        else
          (if ((r :: rs) ++ [t]).getLastD "" = "TOTP" ∨
              ((r :: rs) ++ [t]).getLastD "" = "HOTP" then
            Except.error Exn.typeError
          else Module.addOtp ctx (.str (joinSpc ((r :: rs) ++ [t]))) .none .none) := rfl
    have hlast : ((r :: rs) ++ [t]).getLastD "" = t := by
      rw [List.getLastD_eq_getLast?, List.getLast?_concat]
      rfl
    have hdrop : ((r :: rs) ++ [t]).dropLast = r :: rs := List.dropLast_concat
    rw [List.cons_append ("add_otp") (r :: rs) [t]]
    rw [hd, if_pos (str_ne_none s), hlast, hdrop, if_pos ht, joinSpc_of_split hn hrs]
  have h0 : drive ctx .addOtpOp [.str n, .str t, .str s] =
      driveFrom ctx (.ok [.act (.askInput "Add OTP to which password?" "" "add_otp")])
        [.str n, .str t, .str s] := rfl
  rw [h0, driveFrom_cons ctx [.act (.askInput "Add OTP to which password?" ""
    "add_otp")] (.str n) [.str t, .str s] "add_otp" rfl, step1, ask2,
    driveFrom_cons ctx [.act (.askChoice "Use which OTP type?" ["TOTP", "HOTP"]
      ("add_otp " ++ n))] (.str t) [.str s] ("add_otp " ++ n) rfl, step2, ask3,
    driveFrom_cons ctx [.act (.askInput "What is the OTP secret?" ""
      ("add_otp " ++ n ++ " " ++ t))] (.str s) [] ("add_otp " ++ n ++ " " ++ t) rfl,
    driveFrom_nil, step3]
  rfl

theorem insert_isOk (ctx : Ctx) (a b : Value) :
    ∃ evs, Module.insert ctx a b = .ok evs := by
  unfold Module.insert
  repeat' split
  all_goals exact ⟨_, rfl⟩

theorem edit_isOk (ctx : Ctx) (a b : Value) :
    ∃ evs, Module.edit ctx a b = .ok evs := by
  unfold Module.edit
  repeat' split
  all_goals exact ⟨_, rfl⟩

theorem copy_isOk (ctx : Ctx) (a b : Value) :
    ∃ evs, Module.copy ctx a b = .ok evs := by
  unfold Module.copy
  repeat' split
  all_goals exact ⟨_, rfl⟩

theorem rename_isOk (ctx : Ctx) (a b : Value) :
    ∃ evs, Module.rename ctx a b = .ok evs := by
  unfold Module.rename
  repeat' split
  all_goals exact ⟨_, rfl⟩

theorem remove_isOk (ctx : Ctx) (a b : Value) :
    ∃ evs, Module.remove ctx a b = .ok evs := by
  unfold Module.remove
  repeat' split
  all_goals exact ⟨_, rfl⟩

theorem initStore_isOk (ctx : Ctx) (a : Value) :
    ∃ evs, Module.initStore ctx a = .ok evs := by
  unfold Module.initStore
  repeat' split
  all_goals exact ⟨_, rfl⟩

theorem addOtp_isOk (ctx : Ctx) (a b c : Value) :
    ∃ evs, Module.addOtp ctx a b c = .ok evs := by
  unfold Module.addOtp
  repeat' split
  all_goals exact ⟨_, rfl⟩

theorem insert_ne_error (ctx : Ctx) (a b : Value) (e : Exn) :
    Module.insert ctx a b ≠ Except.error e := by
  obtain ⟨evs, h⟩ := insert_isOk ctx a b
  rw [h]
  simp

theorem edit_ne_error (ctx : Ctx) (a b : Value) (e : Exn) :
    Module.edit ctx a b ≠ Except.error e := by
  obtain ⟨evs, h⟩ := edit_isOk ctx a b
  rw [h]
  simp

theorem copy_ne_error (ctx : Ctx) (a b : Value) (e : Exn) :
    Module.copy ctx a b ≠ Except.error e := by
  obtain ⟨evs, h⟩ := copy_isOk ctx a b
  rw [h]
  simp

theorem rename_ne_error (ctx : Ctx) (a b : Value) (e : Exn) :
    Module.rename ctx a b ≠ Except.error e := by
  obtain ⟨evs, h⟩ := rename_isOk ctx a b
  rw [h]
  simp

theorem remove_ne_error (ctx : Ctx) (a b : Value) (e : Exn) :
    Module.remove ctx a b ≠ Except.error e := by
  obtain ⟨evs, h⟩ := remove_isOk ctx a b
  rw [h]
  simp

theorem initStore_ne_error (ctx : Ctx) (a : Value) (e : Exn) :
    Module.initStore ctx a ≠ Except.error e := by
  obtain ⟨evs, h⟩ := initStore_isOk ctx a
  rw [h]
  simp

theorem addOtp_ne_error (ctx : Ctx) (a b c : Value) (e : Exn) :
    Module.addOtp ctx a b c ≠ Except.error e := by
  obtain ⟨evs, h⟩ := addOtp_isOk ctx a b c
  rw [h]
  simp

theorem pyInt_ne_typeError (v : Value) (h : v.truthy = true) :
    pyInt v ≠ .error .typeError := by
  cases v with
  | none => simp [Value.truthy] at h
  | str s =>
    simp only [pyInt]
    split <;> simp
  | bool b => simp [pyInt]
  | int n => simp [pyInt]

theorem generate_ne_typeError (ctx : Ctx) (a b : Value) :
    Module.generate ctx a b ≠ .error .typeError := by
  unfold Module.generate
  by_cases ha : (!a.truthy) = true
  · rw [if_pos ha]
    simp
  · rw [if_neg ha]
    by_cases hb : (!b.truthy) = true
    · rw [if_pos hb]
      simp
    · rw [if_neg hb]
      have hbt : b.truthy = true := by
        revert hb
        cases b.truthy <;> simp
      cases hpy : pyInt b with
      | error e =>
        show (Except.error e : Except Exn (List Event)) ≠ Except.error Exn.typeError
        intro hcon
        injection hcon with h1
        exact pyInt_ne_typeError b hbt (by rw [hpy, h1])
      | ok m =>
        show (match Module.insert ctx a (.str (ctx.genPw (pyStr a) m)) with
              | .error e => (Except.error e : Except Exn (List Event))
              | .ok evs =>
                Except.ok (Event.call (BCall.generatePassword (pyStr a) m) :: evs)) ≠
            Except.error Exn.typeError
        obtain ⟨evs2, h2⟩ := insert_isOk ctx a (.str (ctx.genPw (pyStr a) m))
        rw [h2]
        simp

theorem dispatch_ne_typeError (ctx : Ctx) (resp : Value) (data : List String)
    (hresp : resp ≠ Value.none) :
    Module.dispatchResponse ctx resp data ≠ .error .typeError := by
  unfold Module.dispatchResponse
  cases data with
  | nil => simp
  | cons d0 rest =>
    repeat' split
    all_goals first
      | exact insert_ne_error _ _ _ _
      | exact edit_ne_error _ _ _ _
      | exact copy_ne_error _ _ _ _
      | exact rename_ne_error _ _ _ _
      | exact remove_ne_error _ _ _ _
      | exact initStore_ne_error _ _ _
      | exact addOtp_ne_error _ _ _ _ _
      | exact generate_ne_typeError _ _ _
      | simp_all

/-- C1 (amended): for every operation of the continuation protocol, if every
answer is a non-`None` value, the first answer (the entry name) survives the
whitespace-split/space-join round-trip of the continuation token, the
generate length answer is non-empty, and an add-OTP name does not end in the
literal word "TOTP" or "HOTP", then driving the operation through its
prompt/response cycles produces exactly the outcome (same backend calls,
same arguments, same host actions) of invoking it with all parameters
supplied at once. -/
theorem stepwise_prompts_match_direct_call (ctx : Ctx) (op : Op) (args : List Value)
    (h : goodAnswers op args) : drive ctx op args = invokeOp ctx op args := by
  cases op with
  | insertOp =>
    obtain ⟨n, v, rfl, hn⟩ := h
    exact drive_insert ctx n v hn
  | generateOp =>
    obtain ⟨n, l, rfl, hn, hl⟩ := h
    exact drive_generate ctx n l hn hl
  | editOp =>
    obtain ⟨n, v, rfl, hn⟩ := h
    exact drive_edit ctx n v hn
  | copyOp =>
    obtain ⟨n, v, rfl, hn⟩ := h
    exact drive_copy ctx n v hn
  | renameOp =>
    obtain ⟨n, v, rfl, hn⟩ := h
    exact drive_rename ctx n v hn
  | removeOp =>
    obtain ⟨n, v, rfl, hn, hv⟩ := h
    exact drive_remove ctx n v hn hv
  | initOp =>
    obtain ⟨g, rfl, hg⟩ := h
    exact drive_initStore ctx g
  | addOtpOp =>
    obtain ⟨n, t, s, rfl, hn, ht, hT, hH⟩ := h
    exact drive_addOtp ctx n t s hn ht hT hH

/-- Witness for C1 at a concrete run: insert "site"/"hunter2". -/
theorem stepwise_prompts_match_direct_call_witness :
    goodAnswers .insertOp [Value.str "site", Value.str "hunter2"] ∧
      drive ctx0 .insertOp [Value.str "site", Value.str "hunter2"] =
        invokeOp ctx0 .insertOp [Value.str "site", Value.str "hunter2"] :=
  ⟨⟨"site", "hunter2", rfl, ⟨by decide, by decide⟩⟩,
   stepwise_prompts_match_direct_call ctx0 .insertOp _
     ⟨"site", "hunter2", rfl, ⟨by decide, by decide⟩⟩⟩

/-- C1 counterexample: for the copy operation with name "a  b" (two spaces),
the step-by-step flow collapses the token's whitespace ("a b"), so the final
backend call copies a different source file than the all-at-once call. -/
theorem stepwise_prompts_counterexample :
    drive ctx0 .copyOp [Value.str "a  b", Value.str "c"] ≠
      invokeOp ctx0 .copyOp [Value.str "a  b", Value.str "c"] := by
  decide

/-- C2 (confirmed, in the stronger form without the generate exception): a
`None` response to any continuation token returns immediately from
`process_response` with no backend call, no queued action and no state
touched. -/
theorem cancel_response_is_noop (ctx : Ctx) (identifier : String) :
    Module.processResponse ctx Value.none identifier = .ok [] := by
  simp [Module.processResponse]

/-- C3 counterexample: a missing (`None`) length answer for generate is
treated as cancellation by the early return — no backend call at all, in
particular no generate-password call with the default 15. -/
theorem generate_none_length_cancels :
    Module.processResponse ctx0 Value.none "generate site" = Except.ok [] ∧
    ∀ evs, Module.processResponse ctx0 Value.none "generate site" = Except.ok evs →
      Event.call (BCall.generatePassword "site" 15) ∉ evs := by
  refine ⟨rfl, ?_⟩
  intro evs h
  have h2 : (Except.ok [] : Except Exn (List Event)) = Except.ok evs := h
  injection h2 with h3
  rw [← h3]
  exact List.not_mem_nil _

/-- C3 (amended): an empty-string (but non-`None`) length answer is not
treated as cancellation: the controller substitutes the default 15 and calls
the backend's generate-password with length 15. -/
theorem generate_empty_length_defaults_to_15 (ctx : Ctx) (n : String)
    (hn : goodName n) :
    ∃ evs, Module.processResponse ctx (Value.str "") ("generate " ++ n) =
      .ok (Event.call (BCall.generatePassword n 15) :: evs) := by
  obtain ⟨r, rs, hrs⟩ := List.exists_cons_of_ne_nil (goodName_split_ne_nil hn)
  simp only [Module.processResponse]
  rw [if_neg (str_ne_none "")]
  have htok : ("generate " ++ n) = "generate" ++ " " ++ n := rfl
  rw [htok, pySplit_word_append "generate" n (by decide), hrs]
  have hd : Module.dispatchResponse ctx (.str "") ("generate" :: r :: rs) =
      if (Value.str "") ≠ Value.none then
        Module.generate ctx (.str (joinSpc (r :: rs)))
          (if (Value.str "").truthy then (Value.str "") else .int 15)
      else Module.generate ctx (.str (joinSpc (r :: rs))) .none := rfl
  rw [hd, if_pos (str_ne_none ""), joinSpc_of_split hn hrs,
    if_neg (by decide : ¬ ((Value.str "").truthy = true))]
  have hgen : Module.generate ctx (.str n) (.int 15) =
      match Module.insert ctx (.str n) (.str (ctx.genPw n 15)) with
      | .error e => .error e
      | .ok evs => .ok (.call (.generatePassword n 15) :: evs) := by
    simp [Module.generate, Value.truthy, isEmpty_false_of_ne n hn.1, pyInt, pyStr]
  obtain ⟨evs2, hins⟩ := insert_isOk ctx (.str n) (.str (ctx.genPw n 15))
  refine ⟨evs2, ?_⟩
  rw [hgen, hins]

/-- Witness for C3's amended theorem at name "site". -/
theorem generate_empty_length_defaults_to_15_witness :
    goodName "site" ∧
      ∃ evs, Module.processResponse ctx0 (Value.str "") ("generate " ++ "site") =
        .ok (Event.call (BCall.generatePassword "site" 15) :: evs) :=
  ⟨⟨by decide, by decide⟩,
   generate_empty_length_defaults_to_15 ctx0 "site" ⟨by decide, by decide⟩⟩

/-- C9 (confirmed): the `None` early return makes the response-is-`None`
inner branches of `process_response` unreachable; in particular the
`add_otp` branch whose `" ".join(data[1:-1], otp_type=data[-1])` would raise
`TypeError` can never fire: `process_response` never raises `TypeError`, for
any response and any continuation token. -/
theorem dead_branch_unreachable_no_typeError (ctx : Ctx) (resp : Value)
    (identifier : String) :
    Module.processResponse ctx resp identifier ≠ .error .typeError := by
  by_cases h : resp = Value.none
  · simp [Module.processResponse, h]
  · simp only [Module.processResponse, if_neg h]
    exact dispatch_ne_typeError ctx resp (pySplit identifier) h

/-- C10 (confirmed): a non-numeric, non-empty length answer ("abc") for
generate propagates to the unguarded `int(length)` conversion, which raises
`ValueError`; no re-prompt and no error action is emitted. -/
theorem generate_nonnumeric_length_raises (ctx : Ctx) :
    Module.processResponse ctx (Value.str "abc") "generate site" =
      .error .valueError := rfl

/-- C6 (confirmed): an entry whose content is a single line after the OTP
transform and trailing-whitespace strip is copied to the clipboard at once,
followed by close: no field entry is added, no prompt is asked, and the
session cache is untouched. -/
theorem single_line_entry_copies_immediately (ctx : Ctx) (st : Entries)
    (name content line : String)
    (hdec : ctx.decrypt name = some content)
    (hl : Module.otpLines ctx content = [line]) :
    Module.selectionMade ctx st [⟨SelType.entry, name, Option.none⟩] =
      .ok ([.call (.getDecryptedPassword name), .act .replaceEntryList,
            .act .replaceCommandList, .act (.copyToClipboard line), .act .close],
           st) := by
  unfold Module.selectionMade
  dsimp only
  rw [hdec]
  dsimp only
  rw [hl]
  rfl

/-- Witness for C6: a store entry holding only "secret". -/
def ctxSingle : Ctx :=
  { ctx0 with decrypt := fun n => if n == "e" then some "secret\n" else Option.none }

theorem single_line_entry_copies_immediately_witness :
    ctxSingle.decrypt "e" = some "secret\n" ∧
    Module.otpLines ctxSingle "secret\n" = ["secret"] ∧
    Module.selectionMade ctxSingle [] [⟨SelType.entry, "e", Option.none⟩] =
      .ok ([.call (.getDecryptedPassword "e"), .act .replaceEntryList,
            .act .replaceCommandList, .act (.copyToClipboard "secret"), .act .close],
           []) :=
  ⟨rfl, rfl,
   single_line_entry_copies_immediately ctxSingle [] "e" "secret\n" "secret" rfl rfl⟩

/-- C5 (amended): a second-level selection of a non-masked field (label other
than "********") present in the session cache copies the part after the
first ": " when the separator occurs and the whole content otherwise, then
clears the cache and emits close; the masked password entry "********"
instead copies its whole cached line unsplit. -/
theorem field_selection_copies_value (ctx : Ctx) (st : Entries) (f g : Frame)
    (content : String)
    (ht : g.type ≠ SelType.noneT)
    (hv : g.value ≠ "********")
    (hc : getEntry st g.value = some content) :
    Module.selectionMade ctx st [f, g] =
      .ok ([.act (.copyToClipboard (copyPart content)), .act .close], []) := by
  unfold Module.selectionMade
  dsimp only [List.getLast]
  rw [if_neg ht, if_neg hv, hc]

/-- Witness for C5's amended theorem: selecting the cached field
"url: x" copies only "x". -/
theorem field_selection_copies_value_witness :
    (⟨SelType.entry, "url: x", Option.none⟩ : Frame).type ≠ SelType.noneT ∧
    (⟨SelType.entry, "url: x", Option.none⟩ : Frame).value ≠ "********" ∧
    getEntry [("url: x", "url: x")]
      (⟨SelType.entry, "url: x", Option.none⟩ : Frame).value = some "url: x" ∧
    Module.selectionMade ctx0 [("url: x", "url: x")]
      [⟨SelType.entry, "e", Option.none⟩, ⟨SelType.entry, "url: x", Option.none⟩] =
      .ok ([.act (.copyToClipboard (copyPart "url: x")), .act .close], []) :=
  ⟨by decide, by decide, rfl,
   field_selection_copies_value ctx0 [("url: x", "url: x")]
     ⟨SelType.entry, "e", Option.none⟩ ⟨SelType.entry, "url: x", Option.none⟩
     "url: x" (by decide) (by decide) rfl⟩

/-- C5 counterexample: selecting the masked password entry "********" whose
cached line contains the separator ": " copies the whole line, not only the
part after the first ": ". -/
theorem password_field_copied_whole :
    Module.selectionMade ctx0 [("********", "user: secret")]
      [⟨SelType.entry, "e", Option.none⟩, ⟨SelType.entry, "********", Option.none⟩] =
      .ok ([.act (.copyToClipboard "user: secret"), .act .close], []) ∧
    copyPart "user: secret" = "secret" ∧
    "user: secret" ≠ "secret" :=
  ⟨rfl, rfl, by decide⟩

/-- C7 (confirmed): when source and destination of a copy resolve to the
same file, no copy is performed; the single emitted action is the re-prompt
for a new name with continuation token `copy <name>`, the selection is not
cleared, and no error is surfaced. -/
theorem copy_same_file_reprompts (ctx : Ctx) (name copyName : String)
    (hn : name ≠ "") (hc : copyName ≠ "")
    (hs : ctx.sameFile (pathJoin ctx.root (name ++ ".gpg"))
            (pathJoin ctx.root (copyName ++ ".gpg")) = true) :
    Module.copy ctx (.str name) (.str copyName) =
      .ok [.act (.askInput ("What should the copy of " ++ name ++ " be named?")
        name ("copy " ++ name))] := by
  simp [Module.copy, Value.truthy, isEmpty_false_of_ne name hn,
    isEmpty_false_of_ne copyName hc, pyStr, hs]

/-- Witness for C7: copying "a" over itself re-prompts. -/
theorem copy_same_file_reprompts_witness :
    ctx0.sameFile (pathJoin ctx0.root ("a" ++ ".gpg"))
      (pathJoin ctx0.root ("a" ++ ".gpg")) = true ∧
    Module.copy ctx0 (.str "a") (.str "a") =
      .ok [.act (.askInput ("What should the copy of " ++ "a" ++ " be named?")
        "a" ("copy " ++ "a"))] :=
  ⟨by decide, copy_same_file_reprompts ctx0 "a" "a" (by decide) (by decide) (by decide)⟩

/-- C8 (confirmed): remove with confirmed = false performs no deletion and
emits nothing; only confirmed = true deletes `<root>/<name>.gpg` and clears
the selection. -/
theorem remove_requires_confirmation (ctx : Ctx) (name : String) (hn : name ≠ "") :
    Module.remove ctx (.str name) (.bool false) = .ok [] ∧
    Module.remove ctx (.str name) (.bool true) =
      .ok [.call (.osRemove (pathJoin ctx.root (name ++ ".gpg"))),
           .act .setSelection] := by
  constructor <;>
    simp [Module.remove, Value.truthy, isEmpty_false_of_ne name hn, pyStr]

/-- Witness for C8 at name "a". -/
theorem remove_requires_confirmation_witness :
    ("a" : String) ≠ "" ∧
    Module.remove ctx0 (.str "a") (.bool false) = .ok [] ∧
    Module.remove ctx0 (.str "a") (.bool true) =
      .ok [.call (.osRemove (pathJoin ctx0.root ("a" ++ ".gpg"))),
           .act .setSelection] :=
  ⟨by decide, remove_requires_confirmation ctx0 "a" (by decide)⟩

/-- Context whose entry "e" decrypts to a two-line content whose second line
carries an ANSI colour escape. -/
def ctxAnsi : Ctx :=
  { ctx0 with decrypt := fun n =>
      if n == "e" then some "pw\nurl: \x1b[31mx\x1b[0m" else Option.none }

/-- C4 (code_bug evaluation): the `ANSIEscapeRegex` compiled in `init` is
never applied; a decrypted line containing an ANSI escape is listed and
cached verbatim, not in the stripped form the regex defines. -/
theorem ansi_escape_not_stripped :
    Module.selectionMade ctxAnsi [] [⟨SelType.entry, "e", Option.none⟩] =
      .ok ([.call (.getDecryptedPassword "e"), .act .replaceEntryList,
            .act .replaceCommandList, .act (.addEntry "********"),
            .act (.addEntry "url: \x1b[31mx\x1b[0m")],
           [("********", "pw"),
            ("url: \x1b[31mx\x1b[0m", "url: \x1b[31mx\x1b[0m")]) ∧
    stripAnsi "url: \x1b[31mx\x1b[0m" = "url: x" ∧
    "url: \x1b[31mx\x1b[0m" ≠ "url: x" :=
  ⟨rfl, rfl, by decide⟩
